import Mathlib

/-!
Verification development for the monchecker top-analyzer repository.

Go `float64` values are modelled as exact rationals (`ℚ`); every claim
settled here only depends on arithmetic that is exact (or whose outcome is
robust) under this model.  Go integer types (`int64`, `uint64`) are
modelled as `ℤ`/`ℕ`, with explicit wrapping where a conversion occurs.
Go maps are modelled as association lists in insertion order; the claims
settled here do not depend on iteration order.  File/clock I/O (timestamps,
JSON encoding, file writes) is outside the embedding.
-/

set_option maxRecDepth 4000

/-- Association-list lookup, mirroring a Go map read returning `(value, ok)`. -/
def lookupA {α : Type} (m : List (String × α)) (k : String) : Option α :=
  match m with
  | [] => none
  | (k2, v2) :: rest => if k2 = k then some v2 else lookupA rest k

/-- Association-list lookup with a default, mirroring a Go map read that
yields the zero value on a missing key. -/
def lookupD {α : Type} (m : List (String × α)) (k : String) (d : α) : α :=
  (lookupA m k).getD d

/-- Association-list write, mirroring a Go map store: replace in place if the
key exists, else append (insertion order). -/
def updateA {α : Type} (m : List (String × α)) (k : String) (v : α) :
    List (String × α) :=
  match m with
  | [] => [(k, v)]
  | (k2, v2) :: rest => if k2 = k then (k, v) :: rest else (k2, v2) :: updateA rest k v

/-- The bounded-append pattern used by every sliding window in `trend.go`
(`AddStats`, lines 124-150) and `summary.go` (`Update`): append, then if the
length exceeds the bound drop the oldest element (`slice[1:]`). -/
def pushBounded {α : Type} (xs : List α) (w : ℕ) (v : α) : List α :=
  let ys := xs ++ [v]
  if ys.length > w then ys.tail else ys

/-- Go loop pattern `m := init; for _, v := range xs { if v > m { m = v } }`. -/
def goMaxFrom (init : ℚ) (xs : List ℚ) : ℚ :=
  xs.foldl (fun a v => if v > a then v else a) init

/-- Go loop pattern `m := init; for _, v := range xs { if v < m { m = v } }`. -/
def goMinFrom (init : ℚ) (xs : List ℚ) : ℚ :=
  xs.foldl (fun a v => if v < a then v else a) init

/-- The `min` helper defined identically in `trend.go` (lines 745-750) and
`summary.go` (lines 402-407). -/
def minQ (a b : ℚ) : ℚ :=
  if a < b then a else b

/-- A Go `float64` value that may be non-finite: needed where the code
divides without a zero guard (`summary.go` line 142). -/
inductive FVal where
  | finite (q : ℚ)
  | nan
  | posInf
  | negInf
deriving DecidableEq, Repr

/-- IEEE-754 division of two finite `float64` values: `0/0` is NaN,
`x/0` for `x ≠ 0` is a signed infinity, otherwise exact in this model. -/
def fdiv (x y : ℚ) : FVal :=
  if y = 0 then
    if x = 0 then FVal.nan else if x > 0 then FVal.posInf else FVal.negInf
  else FVal.finite (x / y)

/-- Multiplication by the positive literal `100` (the `* 100` in
`summary.go` line 142): preserves NaN and the sign of infinities. -/
def FVal.mul100 : FVal → FVal
  | FVal.finite q => FVal.finite (q * 100)
  | FVal.nan => FVal.nan
  | FVal.posInf => FVal.posInf
  | FVal.negInf => FVal.negInf

/-- Whether a `float64` value is finite (neither NaN nor an infinity). -/
def FVal.isFinite : FVal → Bool
  | FVal.finite _ => true
  | _ => false

/-- IEEE comparison `v > c` against a finite constant: false for NaN,
true for `+Inf`, false for `-Inf`. -/
def FVal.gtQ : FVal → ℚ → Bool
  | FVal.finite q, c => decide (q > c)
  | FVal.nan, _ => false
  | FVal.posInf, _ => true
  | FVal.negInf, _ => false

namespace parser

/-- `parser.CPU` (parser.go lines 26-34): per-mode CPU percentages. -/
structure CPU where
  user : ℚ
  sys : ℚ
  nice : ℚ
  idle : ℚ
  io : ℚ
  irq : ℚ
  sirq : ℚ
deriving DecidableEq, Repr

/-- `parser.Memory` (parser.go lines 37-44): sizes are Go `int64`. -/
structure Memory where
  total : ℤ
  used : ℤ
  free : ℤ
  shared : ℤ
  buffers : ℤ
  cached : ℤ
deriving DecidableEq, Repr

/-- `parser.LoadAverage` (parser.go lines 47-51). -/
structure LoadAverage where
  one : ℚ
  five : ℚ
  fifteen : ℚ
deriving DecidableEq, Repr

/-- `parser.Process` (parser.go lines 54-69). The `time` field is the
textual CPU-time column. -/
structure Process where
  pid : ℤ
  ppid : ℤ
  user : String
  priority : ℤ
  nice : ℤ
  vsz : ℤ
  vszPercent : ℚ
  rss : ℤ
  state : String
  cpu : ℤ
  cpuPercent : ℚ
  memPercent : ℚ
  time : String
  command : String
deriving DecidableEq, Repr

/-- `parser.FilesystemStats` (parser.go lines 72-80). -/
structure FilesystemStats where
  device : String
  size : ℤ
  used : ℤ
  available : ℤ
  usedPct : ℚ
  mountPoint : String
  critical : Bool
deriving DecidableEq, Repr

/-- `temperature.TemperatureStats`: a sensor-name → °C mapping. -/
structure TemperatureStats where
  sensors : List (String × ℚ)
deriving DecidableEq, Repr

/-- `parser.SystemStats` (parser.go lines 15-23).  The capture timestamp is
outside the embedding; `filesystem` is `Option` to mirror a possibly-nil
Go map (`Analyze` tests `Filesystem != nil`). -/
structure SystemStats where
  cpu : CPU
  memory : Memory
  loadAverage : LoadAverage
  processes : List Process
  temperature : TemperatureStats
  filesystem : Option (List (String × FilesystemStats))
deriving DecidableEq, Repr

end parser

namespace trend

/-- Per-metric block of `trend.Trend` (trend.go lines 15-32). -/
structure MetricTrend where
  mean : ℚ
  stdDev : ℚ
  trendVal : ℚ
  anomaly : Bool
deriving DecidableEq, Repr

/-- Per-sensor block of `trend.Trend.Temperature.Sensors` (trend.go lines 42-51). -/
structure SensorTrend where
  mean : ℚ
  stdDev : ℚ
  trendVal : ℚ
  anomaly : Bool
  max : ℚ
  min : ℚ
  absoluteThreshold : ℚ
  thresholdExceeded : Bool
deriving DecidableEq, Repr

/-- `trend.Trend.Temperature` overall block (trend.go lines 33-52). -/
structure TemperatureTrend where
  mean : ℚ
  stdDev : ℚ
  trendVal : ℚ
  anomaly : Bool
  max : ℚ
  min : ℚ
  absoluteThreshold : ℚ
  thresholdExceeded : Bool
  sensors : List (String × SensorTrend)
deriving DecidableEq, Repr

/-- Per-partition block of `trend.Trend.Filesystem.Partitions` (trend.go lines 54-65). -/
structure PartitionTrend where
  mean : ℚ
  stdDev : ℚ
  trendVal : ℚ
  anomaly : Bool
  min : ℚ
  max : ℚ
  current : ℚ
  critical : Bool
  device : String
  mountPoint : String
deriving DecidableEq, Repr

/-- `trend.Trend.Filesystem` (trend.go lines 53-68). -/
structure FilesystemTrend where
  partitions : List (String × PartitionTrend)
  anomaly : Bool
  critical : Bool
deriving DecidableEq, Repr

/-- `trend.Trend` (trend.go lines 14-70). -/
structure Trend where
  cpuUsage : MetricTrend
  memoryUsage : MetricTrend
  processCount : MetricTrend
  temperature : TemperatureTrend
  filesystem : FilesystemTrend
  systemStress : ℚ
deriving DecidableEq, Repr

/-- `trend.TrendAnalyzer` (trend.go lines 72-81).  Window sizes are
capacities, modelled as `ℕ`. -/
structure TrendAnalyzer where
  history : List parser.SystemStats
  window : ℕ
  tempHistory : List (String × List ℚ)
  longTermTempHistory : List (String × List ℚ)
  anomalyThreshold : ℚ
  trendThreshold : ℚ
  tempThreshold : ℚ
  longTermWindow : ℕ
deriving Repr

/-- `trend.New` (trend.go lines 83-94): note `longTermWindow` is the
constant 100 here. -/
def New (window : ℕ) : TrendAnalyzer :=
  { history := []
    window := window
    tempHistory := []
    longTermTempHistory := []
    anomalyThreshold := 2
    trendThreshold := 1/10
    tempThreshold := 70
    longTermWindow := 100 }

/-- `trend.NewWithOptions` (trend.go lines 96-108): `longTermWindow` is
`window * 10` here. -/
def NewWithOptions (window : ℕ) (anomalyThreshold trendThreshold : ℚ) :
    TrendAnalyzer :=
  { history := []
    window := window
    tempHistory := []
    longTermTempHistory := []
    anomalyThreshold := anomalyThreshold
    trendThreshold := trendThreshold
    tempThreshold := 70
    longTermWindow := window * 10 }

/-- `trend.NewWithFullOptions` (trend.go lines 111-122). -/
def NewWithFullOptions (window : ℕ) (anomalyThreshold trendThreshold tempThreshold : ℚ)
    (longTermWindow : ℕ) : TrendAnalyzer :=
  { history := []
    window := window
    tempHistory := []
    longTermTempHistory := []
    anomalyThreshold := anomalyThreshold
    trendThreshold := trendThreshold
    tempThreshold := tempThreshold
    longTermWindow := longTermWindow }

/-- Body of the per-sensor loop of `AddStats` (trend.go lines 131-149):
push the reading onto the sensor's short and long series. -/
def addSensorReading (w lw : ℕ) (maps : List (String × List ℚ) × List (String × List ℚ))
    (e : String × ℚ) : List (String × List ℚ) × List (String × List ℚ) :=
  (updateA maps.1 e.1 (pushBounded (lookupD maps.1 e.1 []) w e.2),
   updateA maps.2 e.1 (pushBounded (lookupD maps.2 e.1 []) lw e.2))

/-- `TrendAnalyzer.AddStats` (trend.go lines 124-150). -/
def AddStats (t : TrendAnalyzer) (stats : parser.SystemStats) : TrendAnalyzer :=
  let maps := stats.temperature.sensors.foldl
    (addSensorReading t.window t.longTermWindow) (t.tempHistory, t.longTermTempHistory)
  { t with
    history := pushBounded t.history t.window stats
    tempHistory := maps.1
    longTermTempHistory := maps.2 }

/-- One iteration of the Newton loop body of `sqrt` (trend.go line 740):
`z -= (z*z - x) / (2 * z)`. -/
def newtonStep (x z : ℚ) : ℚ :=
  z - (z * z - x) / (2 * z)

/-- `n` iterations of the Newton loop starting from `z = 1.0`. -/
def newtonIter (x : ℚ) : ℕ → ℚ
  | 0 => 1
  | n + 1 => newtonStep x (newtonIter x n)

/-- The hand-rolled `sqrt` of trend.go (lines 736-743): ten Newton
iterations starting from `z = 1.0`.  Note this is not the library square
root; in particular it never reaches 0 on input 0. -/
def sqrtGo (x : ℚ) : ℚ :=
  newtonIter x 10

/-- `calculateStats` (trend.go lines 674-695): population mean and the
`sqrtGo`-based standard deviation. -/
def calculateStats (values : List ℚ) : ℚ × ℚ :=
  if values.length = 0 then (0, 0)
  else
    let mean := values.sum / (values.length : ℚ)
    let sumSq := (values.map (fun v => (v - mean) * (v - mean))).sum
    (mean, sqrtGo (sumSq / (values.length : ℚ)))

/-- The four regression accumulators of `calculateTrend` (trend.go lines
703-712), recursing with the running index: returns
`(sumX, sumY, sumXY, sumX2)`. -/
def regSums (values : List ℚ) (k : ℚ) : ℚ × ℚ × ℚ × ℚ :=
  match values with
  | [] => (0, 0, 0, 0)
  | y :: ys =>
    let r := regSums ys (k + 1)
    (k + r.1, y + r.2.1, k * y + r.2.2.1, k * k + r.2.2.2)

/-- `calculateTrend` (trend.go lines 697-716): ordinary least-squares
slope of value against 0-based sample index. -/
def calculateTrend (values : List ℚ) : ℚ :=
  if values.length < 2 then 0
  else
    let n : ℚ := (values.length : ℚ)
    let s := regSums values 0
    (n * s.2.2.1 - s.1 * s.2.1) / (n * s.2.2.2 - s.1 * s.1)

/-- `detectAnomalyWithThreshold` (trend.go lines 719-729): z-score test on
the last value, guarded by `stdDev = 0`. -/
def detectAnomalyWithThreshold (values : List ℚ) (mean stdDev threshold : ℚ) : Bool :=
  if values.length = 0 ∨ stdDev = 0 then false
  else
    let lastValue := values.getLastD 0
    let zScore := (lastValue - mean) / stdDev
    decide (zScore > threshold) || decide (zScore < -threshold)

/-- `detectTrendAnomaly` (trend.go lines 732-734). -/
def detectTrendAnomaly (trendVal trendThreshold : ℚ) : Bool :=
  decide (|trendVal| > trendThreshold)

end trend

namespace trend

/-- The critical/low per-partition tier of `calculateSystemStress`
(trend.go lines 537-556): +30/+25/+15 when critical, +15/+10/+5 when free
space is below 20%, keyed on the mount point. -/
def partitionTierRisk (mountPoint : String) (fs : PartitionTrend) : ℚ :=
  if fs.critical then
    if mountPoint = "/" then 30 else if mountPoint = "/boot" then 25 else 15
  else if fs.current < 20 then
    if mountPoint = "/" then 15 else if mountPoint = "/boot" then 10 else 5
  else 0

/-- The free-space slope tier of `calculateSystemStress` (trend.go lines
558-565): +15 below slope −1.0, +5 below −0.5. -/
def partitionSlopeRisk (fs : PartitionTrend) : ℚ :=
  if fs.trendVal < -1 then 15 else if fs.trendVal < -(1/2) then 5 else 0

/-- One iteration of the partition loop in `calculateSystemStress`
(trend.go lines 537-566). -/
def partitionRisk (mountPoint : String) (fs : PartitionTrend) : ℚ :=
  partitionTierRisk mountPoint fs + partitionSlopeRisk fs

/-- The accumulated `risk` of `calculateSystemStress` (trend.go lines
470-566), before the final clamp. -/
def stressRisk (t : Trend) : ℚ :=
  (if t.cpuUsage.mean > 20 then 20 else if t.cpuUsage.mean > 10 then 10 else 0)
  + (if t.memoryUsage.mean > 90 then 30 else if t.memoryUsage.mean > 80 then 20
     else if t.memoryUsage.mean > 70 then 10 else 0)
  + (if t.processCount.mean > 100 then 20 else if t.processCount.mean > 50 then 10 else 0)
  + (if t.processCount.anomaly then 20 else 0)
  + (if t.cpuUsage.anomaly then 20 else 0)
  + (if t.temperature.thresholdExceeded then 50
     else if t.temperature.max > 60 then 20
     else if t.temperature.max > 50 then 10
     else if t.temperature.max < -20 then 20
     else if t.temperature.max < -10 then 10 else 0)
  + (if t.temperature.anomaly ∧ ¬t.temperature.thresholdExceeded then 15 else 0)
  + (if t.filesystem.critical then 40 else if t.filesystem.anomaly then 20 else 0)
  + t.filesystem.partitions.foldl (fun acc e => acc + partitionRisk e.1 e.2) 0

/-- `trend.calculateSystemStress` (trend.go lines 470-569): accumulated
risk clamped to 100. -/
def calculateSystemStress (t : Trend) : ℚ :=
  minQ (stressRisk t) 100

/-- The CPU busy% series of `Analyze` (trend.go lines 224-227). -/
def cpuUsagesOf (history : List parser.SystemStats) : List ℚ :=
  history.map (fun st => st.cpu.user + st.cpu.sys)

/-- The memory used% series of `Analyze` (trend.go lines 234-241): the
division is guarded by `Total > 0`. -/
def memUsagesOf (history : List parser.SystemStats) : List ℚ :=
  history.map (fun st =>
    if st.memory.total > 0 then
      (st.memory.used : ℚ) / (st.memory.total : ℚ) * 100
    else 0)

/-- The process-count series of `Analyze` (trend.go lines 248-251). -/
def procCountsOf (history : List parser.SystemStats) : List ℚ :=
  history.map (fun st => (st.processes.length : ℚ))

/-- The four-line per-metric pattern of `Analyze` (e.g. trend.go lines
228-231): stats, slope, and the z-score-or-trend anomaly flag. -/
def metricTrendOf (values : List ℚ) (anomalyThreshold trendThreshold : ℚ) : MetricTrend :=
  let ms := calculateStats values
  let tv := calculateTrend values
  { mean := ms.1
    stdDev := ms.2
    trendVal := tv
    anomaly := detectAnomalyWithThreshold values ms.1 ms.2 anomalyThreshold
      || detectTrendAnomaly tv trendThreshold }

/-- Accumulator of the per-sensor loop of `Analyze` (trend.go lines
257-328): built sensors, pooled temperatures, per-sensor maxima and means,
and the running overall max/min/threshold flags. -/
structure TempAccum where
  sensors : List (String × SensorTrend)
  allTemps : List ℚ
  maxTemps : List ℚ
  avgTemps : List ℚ
  tMax : ℚ
  tMin : ℚ
  tExceeded : Bool
deriving Repr

/-- Body of the per-sensor loop of `Analyze` (trend.go lines 262-328);
sensors with an empty series are skipped (`len(temps) > 0`). -/
def tempFoldStep (t : TrendAnalyzer) (acc : TempAccum) (e : String × List ℚ) :
    TempAccum :=
  match e.2 with
  | [] => acc
  | temp0 :: _ =>
    let temps := e.2
    let ms := calculateStats temps
    let trendValue := calculateTrend temps
    let longTermTemps := lookupD t.longTermTempHistory e.1 []
    let longTermTrend := if longTermTemps.length > 10 then calculateTrend longTermTemps else 0
    let sMax := goMaxFrom temp0 temps
    let sMin := goMinFrom temp0 temps
    let exceeded := decide (sMax > t.tempThreshold)
    let anomaly := detectAnomalyWithThreshold temps ms.1 ms.2 t.anomalyThreshold
      || detectTrendAnomaly trendValue t.trendThreshold
      || detectTrendAnomaly longTermTrend (t.trendThreshold * (1/2))
      || exceeded
    let sensor : SensorTrend :=
      { mean := ms.1, stdDev := ms.2, trendVal := trendValue, anomaly := anomaly
        max := sMax, min := sMin, absoluteThreshold := t.tempThreshold
        thresholdExceeded := exceeded }
    { sensors := acc.sensors ++ [(e.1, sensor)]
      allTemps := acc.allTemps ++ temps
      maxTemps := acc.maxTemps ++ [sMax]
      avgTemps := acc.avgTemps ++ [ms.1]
      tMax := if sMax > acc.tMax then sMax else acc.tMax
      tMin := if acc.tMin = 0 ∨ sMin < acc.tMin then sMin else acc.tMin
      tExceeded := acc.tExceeded || exceeded }

/-- The temperature block of `Analyze` (trend.go lines 257-372), including
the overall recomputation of `Mean`, `Max` and `ThresholdExceeded` after
the sensor loop. -/
def analyzeTemperature (t : TrendAnalyzer) : TemperatureTrend :=
  let acc0 : TempAccum :=
    { sensors := [], allTemps := [], maxTemps := [], avgTemps := []
      tMax := 0, tMin := 0, tExceeded := false }
  let acc := t.tempHistory.foldl (tempFoldStep t) acc0
  let base : TemperatureTrend :=
    { mean := 0, stdDev := 0, trendVal := 0, anomaly := false
      max := acc.tMax, min := acc.tMin, absoluteThreshold := t.tempThreshold
      thresholdExceeded := acc.tExceeded, sensors := acc.sensors }
  let b1 :=
    if acc.allTemps.length > 0 then
      let ms := calculateStats acc.allTemps
      let tempTrendValue := calculateTrend acc.allTemps
      let allLongTermTemps := t.longTermTempHistory.foldl (fun l e => l ++ e.2) []
      let longTermTrend :=
        if allLongTermTemps.length > 10 then calculateTrend allLongTermTemps else 0
      { base with
        mean := ms.1, stdDev := ms.2, trendVal := tempTrendValue
        anomaly := detectAnomalyWithThreshold acc.allTemps ms.1 ms.2 t.anomalyThreshold
          || detectTrendAnomaly tempTrendValue t.trendThreshold
          || detectTrendAnomaly longTermTrend (t.trendThreshold * (1/2))
          || acc.tExceeded }
    else base
  let b2 :=
    match acc.maxTemps with
    | [] => b1
    | m0 :: _ =>
      let mx := goMaxFrom m0 acc.maxTemps
      { b1 with max := mx, thresholdExceeded := decide (mx > t.tempThreshold) }
  if acc.avgTemps.length > 0 then
    { b2 with mean := acc.avgTemps.sum / (acc.avgTemps.length : ℚ) }
  else b2

/-- The per-partition free-space history of `Analyze` (trend.go lines
377-394), keyed by mount point in first-seen order. -/
def fsHistoryOf (history : List parser.SystemStats) : List (String × List ℚ) :=
  history.foldl (fun m st =>
    match st.filesystem with
    | none => m
    | some fsMap =>
      fsMap.foldl (fun m2 e => updateA m2 e.1 (lookupD m2 e.1 [] ++ [100 - e.2.usedPct])) m)
    []

/-- The zero value of `parser.FilesystemStats`, returned by a Go map read
on a missing mount point (trend.go line 403). -/
def zeroFs : parser.FilesystemStats :=
  { device := "", size := 0, used := 0, available := 0, usedPct := 0
    mountPoint := "", critical := false }

/-- The filesystem block of `Analyze` (trend.go lines 374-462): per
partition with at least two data points, statistics, the double-threshold
trend anomaly and the `< 10%` critical flag. -/
def analyzeFilesystem (t : TrendAnalyzer) : FilesystemTrend :=
  let empty : FilesystemTrend := { partitions := [], anomaly := false, critical := false }
  match t.history.getLast? with
  | none => empty
  | some lastStats =>
    match lastStats.filesystem with
    | none => empty
    | some lastFs =>
      (fsHistoryOf t.history).foldl (fun ft e =>
        match e.2 with
        | f0 :: _ :: _ =>
          let freeSpaceHistory := e.2
          let currentFs := (lookupA lastFs e.1).getD zeroFs
          let ms := calculateStats freeSpaceHistory
          let trendValue := calculateTrend freeSpaceHistory
          let current := 100 - currentFs.usedPct
          let mn := goMinFrom f0 freeSpaceHistory
          let mx := goMaxFrom f0 freeSpaceHistory
          let anomaly := detectAnomalyWithThreshold freeSpaceHistory ms.1 ms.2 t.anomalyThreshold
            || detectTrendAnomaly trendValue (t.trendThreshold * 2)
          let critical := decide (current < 10)
          let p : PartitionTrend :=
            { mean := ms.1, stdDev := ms.2, trendVal := trendValue, anomaly := anomaly
              min := mn, max := mx, current := current, critical := critical
              device := currentFs.device, mountPoint := e.1 }
          { partitions := ft.partitions ++ [(e.1, p)]
            anomaly := ft.anomaly || anomaly
            critical := ft.critical || critical }
        | _ => ft) empty

/-- The `Trend` built by `Analyze` once the history guard has passed
(trend.go lines 157-467): the three scalar metrics, the temperature and
filesystem blocks, and the stress score computed on the result. -/
def analyzeCore (t : TrendAnalyzer) : Trend :=
  let base : Trend :=
    { cpuUsage := metricTrendOf (cpuUsagesOf t.history) t.anomalyThreshold t.trendThreshold
      memoryUsage := metricTrendOf (memUsagesOf t.history) t.anomalyThreshold t.trendThreshold
      processCount := metricTrendOf (procCountsOf t.history) t.anomalyThreshold t.trendThreshold
      temperature := analyzeTemperature t
      filesystem := analyzeFilesystem t
      systemStress := 0 }
  { base with systemStress := calculateSystemStress base }

/-- `TrendAnalyzer.Analyze` (trend.go lines 152-468): `nil` on fewer than
two samples of history. -/
def Analyze (t : TrendAnalyzer) : Option Trend :=
  if t.history.length < 2 then none else some (analyzeCore t)

/-- One step of the per-sample process deduplication of `SaveSnapshot`
(trend.go lines 594-604): a later entry with the same command replaces the
stored one when its `VSZPercent` or its `CPUPercent` is strictly larger. -/
def dedupInsert (m : List (String × parser.Process)) (p : parser.Process) :
    List (String × parser.Process) :=
  match lookupA m p.command with
  | some existing =>
    if p.vszPercent > existing.vszPercent || p.cpuPercent > existing.cpuPercent then
      updateA m p.command p
    else m
  | none => updateA m p.command p

/-- The process deduplication of `SaveSnapshot` (trend.go lines 593-609):
collapse a sample's process list to one entry per command. -/
def dedupProcesses (ps : List parser.Process) : List parser.Process :=
  (ps.foldl dedupInsert []).map (fun e => e.2)

end trend

namespace summary

/-- Per-sensor entry of `SystemSummary.Temperature.Sensors`
(summary.go lines 34-39). -/
structure SummarySensor where
  value : ℚ
  location : String
  maxTemp : ℚ
  avgTemp : ℚ
deriving DecidableEq, Repr

/-- Per-partition entry of `SystemSummary.Filesystem.Partitions`
(summary.go lines 45-54). -/
structure SummaryPartition where
  device : String
  size : ℤ
  used : ℤ
  available : ℤ
  usedPct : ℚ
  freeSpace : ℚ
  mountPoint : String
  critical : Bool
deriving DecidableEq, Repr

/-- `summary.SystemSummary` (summary.go lines 15-71).  The timestamp and
crash-file bookkeeping are clock/filename values outside the embedding;
`memUsedPc` is an `FVal` because `Update` divides without a zero guard. -/
structure SystemSummary where
  cpuUser : ℚ
  cpuSystem : ℚ
  cpuIdle : ℚ
  load1 : ℚ
  load5 : ℚ
  load15 : ℚ
  memTotal : ℕ
  memUsed : ℕ
  memFree : ℕ
  memUsedPc : FVal
  sensors : List (String × SummarySensor)
  maxTemp : ℚ
  avgTemp : ℚ
  tempHist : List (String × List ℚ)
  fsPartitions : List (String × SummaryPartition)
  fsHist : List (String × List ℚ)
  procTotal : ℕ
  procRunning : ℕ
  procSleeping : ℕ
  procUninterr : ℕ
  procZombie : ℕ
  procHighCPU : ℕ
  procHighMem : ℕ
  highCPUProcs : List (String × ℚ)
  systemStress : ℚ
deriving Repr

/-- `summary.New` (summary.go lines 73-120): the zero summary with empty
maps. -/
def New : SystemSummary :=
  { cpuUser := 0, cpuSystem := 0, cpuIdle := 0, load1 := 0, load5 := 0, load15 := 0
    memTotal := 0, memUsed := 0, memFree := 0, memUsedPc := FVal.finite 0
    sensors := [], maxTemp := 0, avgTemp := 0, tempHist := []
    fsPartitions := [], fsHist := []
    procTotal := 0, procRunning := 0, procSleeping := 0, procUninterr := 0
    procZombie := 0, procHighCPU := 0, procHighMem := 0, highCPUProcs := []
    systemStress := 0 }

/-- The per-partition tier of the summary `calculateSystemStress`
(summary.go lines 358-379): +40/+30/+20 when free space is below 10%,
+20/+15/+10 when below 20%, keyed on the mount point. -/
def summaryPartitionRisk (mount : String) (p : SummaryPartition) : ℚ :=
  if p.freeSpace < 10 then
    if mount = "/" then 40 else if mount = "/boot" then 30 else 20
  else if p.freeSpace < 20 then
    if mount = "/" then 20 else if mount = "/boot" then 15 else 10
  else 0

/-- The accumulated `stress` of the summary `calculateSystemStress`
(summary.go lines 302-380), before the final clamp. -/
def stressAccum (s : SystemSummary) : ℚ :=
  (if s.cpuUser + s.cpuSystem > 90 then 30
   else if s.cpuUser + s.cpuSystem > 70 then 20
   else if s.cpuUser + s.cpuSystem > 50 then 10 else 0)
  + (if s.memUsedPc.gtQ 90 then 30 else if s.memUsedPc.gtQ 70 then 20
     else if s.memUsedPc.gtQ 50 then 10 else 0)
  + (if s.load1 > 10 then 30 else if s.load1 > 5 then 20 else if s.load1 > 2 then 10 else 0)
  + (if s.maxTemp > 70 then 30
     else if s.maxTemp > 60 then 20
     else if s.maxTemp > 50 then 10
     else if s.maxTemp < -20 then 20
     else if s.maxTemp < -10 then 10 else 0)
  + (if s.procUninterr > 5 then 20 else 0)
  + (if s.procHighCPU > 10 then 20 else 0)
  + s.fsPartitions.foldl (fun acc e => acc + summaryPartitionRisk e.1 e.2) 0

/-- `summary.calculateSystemStress` (summary.go lines 302-382). -/
def calculateSystemStress (s : SystemSummary) : ℚ :=
  minQ (stressAccum s) 100

/-- The sensor-location mapping of `Update` (summary.go lines 154-159). -/
def locationOf (name : String) : String :=
  if name = "f10e4078.thermal" then "CPU Core"
  else if name = "lm75" then "External I2C Sensor"
  else "Unknown"

/-- Go `uint64(x)` applied to an `int64`: wrap modulo `2^64`
(summary.go lines 139-141). -/
def toUInt64Z (x : ℤ) : ℕ :=
  (x % (2 : ℤ) ^ 64).toNat

/-- The zero value of `SummarySensor`, produced by a Go map read on a
missing key (summary.go line 204). -/
def zeroSensor : SummarySensor :=
  { value := 0, location := "", maxTemp := 0, avgTemp := 0 }

/-- `SystemSummary.Update` (summary.go lines 122-300), except the
timestamp/crash-file bookkeeping (clock values).  Steps in source order:
CPU and load copy; memory with the unguarded `UsedPc` division; sensor map
rebuild and history push; per-sensor and overall max/avg from history;
process-state counts; the stress score (computed before the filesystem
update, as in the source); filesystem partitions and history. -/
def Update (s : SystemSummary) (stats : parser.SystemStats)
    (tempSensors : List (String × ℚ)) : SystemSummary :=
  let s1 := { s with
    cpuUser := stats.cpu.user, cpuSystem := stats.cpu.sys, cpuIdle := stats.cpu.idle
    load1 := stats.loadAverage.one, load5 := stats.loadAverage.five
    load15 := stats.loadAverage.fifteen }
  let total := stats.memory.total
  let memUsed := toUInt64Z stats.memory.used
  let s2 := { s1 with
    memTotal := toUInt64Z total
    memUsed := memUsed
    memFree := toUInt64Z stats.memory.free
    memUsedPc := FVal.mul100 (fdiv (memUsed : ℚ) (total : ℚ)) }
  let s3 := tempSensors.foldl (fun acc e =>
      { acc with
        sensors := updateA acc.sensors e.1
          { value := e.2, location := locationOf e.1, maxTemp := e.2, avgTemp := e.2 }
        tempHist := updateA acc.tempHist e.1
          (pushBounded (lookupD acc.tempHist e.1 []) 10 e.2) })
    { s2 with sensors := [] }
  let s4 := { s3 with maxTemp := -100 }
  let res := s4.tempHist.foldl
    (fun (acc : SystemSummary × ℚ × ℕ) e =>
      let sensorMax := goMaxFrom (-100) e.2
      let sensorSum := e.2.sum
      let sensor := lookupD acc.1.sensors e.1 zeroSensor
      ({ acc.1 with
          maxTemp := goMaxFrom acc.1.maxTemp e.2
          sensors := updateA acc.1.sensors e.1
            { sensor with maxTemp := sensorMax, avgTemp := sensorSum / (e.2.length : ℚ) } },
        acc.2.1 + sensorSum, acc.2.2 + e.2.length))
    (s4, (0 : ℚ), (0 : ℕ))
  let s5 := res.1
  let s6 := if res.2.2 > 0 then { s5 with avgTemp := res.2.1 / ((res.2.2 : ℚ)) } else s5
  let procs := stats.processes
  let s7 := { s6 with
    procTotal := procs.length
    procRunning := (procs.filter (fun p : parser.Process => p.state = "R")).length
    procSleeping := (procs.filter (fun p : parser.Process => p.state = "S")).length
    procUninterr := (procs.filter (fun p : parser.Process => p.state = "D")).length
    procZombie := (procs.filter (fun p : parser.Process => p.state = "Z")).length
    procHighCPU := (procs.filter (fun p : parser.Process => p.cpuPercent > 10)).length
    procHighMem := (procs.filter (fun p : parser.Process => p.vszPercent > 5)).length
    highCPUProcs := procs.foldl
      (fun l (p : parser.Process) => if p.cpuPercent > 10 then l ++ [(p.command, p.cpuPercent)] else l) [] }
  let s8 := { s7 with systemStress := calculateSystemStress s7 }
  match stats.filesystem with
  | none => s8
  | some fsMap =>
    fsMap.foldl (fun acc e =>
      let freeSpace := 100 - e.2.usedPct
      { acc with
        fsPartitions := updateA acc.fsPartitions e.1
          { device := e.2.device, size := e.2.size, used := e.2.used
            available := e.2.available, usedPct := e.2.usedPct
            freeSpace := freeSpace, mountPoint := e.2.mountPoint
            critical := e.2.critical }
        fsHist := updateA acc.fsHist e.1
          (pushBounded (lookupD acc.fsHist e.1 []) 10 freeSpace) }) s8

end summary

/-- The crash-dump condition of the orchestrator (main.go lines 169-176):
high stress or any anomaly / threshold / critical flag. -/
def crashDumpCondition (tr : trend.Trend) : Bool :=
  decide (tr.systemStress ≥ 85)
  || tr.cpuUsage.anomaly
  || tr.processCount.anomaly
  || tr.temperature.anomaly
  || tr.memoryUsage.anomaly
  || tr.temperature.thresholdExceeded
  || tr.filesystem.critical
  || tr.filesystem.anomaly

/-- Whether one orchestrator tick invokes the crash-dump write
(main.go lines 166-231): only when `Analyze` returned a trend and the
condition holds. -/
def tickCrashDump (t : trend.TrendAnalyzer) : Bool :=
  match trend.Analyze t with
  | none => false
  | some tr => crashDumpCondition tr

/-! ## Concrete inputs used by the claims -/

/-- A sample whose CPU busy% (`user + sys`) is `busy` and whose other
fields are all zero/empty. -/
def cpuSampleAt (busy : ℚ) : parser.SystemStats :=
  { cpu := { user := busy, sys := 0, nice := 0, idle := 0, io := 0, irq := 0, sirq := 0 }
    memory := { total := 0, used := 0, free := 0, shared := 0, buffers := 0, cached := 0 }
    loadAverage := { one := 0, five := 0, fifteen := 0 }
    processes := []
    temperature := { sensors := [] }
    filesystem := none }

/-- The all-zero sample. -/
def sampleZero : parser.SystemStats := cpuSampleAt 0

/-! ## Claim C8 -/

/-- Claim C8, counterexample: `trend.New` fixes `longTermWindow` at the
constant 100, so for `window = 5` it is not `window × 10 = 50`. -/
theorem new_longTermWindow_counterexample :
    (trend.New 5).longTermWindow = 100 ∧ (trend.New 5).longTermWindow ≠ 5 * 10 := by
  constructor
  · rfl
  · norm_num [trend.New]

/-- Claim C8 as amended: `trend.New` defaults `anomalyThreshold = 2.0`,
`trendThreshold = 0.1`, `tempThreshold = 70.0` and `longTermWindow = 100`
(a constant, not `window × 10`); it is `trend.NewWithOptions` that
defaults `tempThreshold = 70.0` and sets `longTermWindow = window × 10`. -/
theorem constructor_defaults (w : ℕ) (a tt : ℚ) :
    (trend.New w).anomalyThreshold = 2
    ∧ (trend.New w).trendThreshold = 1/10
    ∧ (trend.New w).tempThreshold = 70
    ∧ (trend.New w).longTermWindow = 100
    ∧ (trend.NewWithOptions w a tt).anomalyThreshold = a
    ∧ (trend.NewWithOptions w a tt).trendThreshold = tt
    ∧ (trend.NewWithOptions w a tt).tempThreshold = 70
    ∧ (trend.NewWithOptions w a tt).longTermWindow = w * 10 :=
  ⟨rfl, rfl, rfl, rfl, rfl, rfl, rfl, rfl⟩

/-! ## Claim C1 -/

/-- Claim C1: on the constant window `[50,50,50,50]` the code's hand-rolled
Newton `sqrt` never reaches 0, so `calculateStats` returns a standard
deviation of `1/1024`, not the exact 0 the specification states; since the
`stdDev = 0` guard therefore does not fire, the z-score (which is 0) makes
the anomaly test return false exactly for thresholds `≥ 0`, not for every
threshold. -/
theorem constant_sequence_stats :
    trend.calculateStats [50, 50, 50, 50] = (50, 1/1024)
    ∧ ((1 : ℚ)/1024 : ℚ) ≠ 0
    ∧ (∀ θ : ℚ,
        trend.detectAnomalyWithThreshold [50, 50, 50, 50] 50 (1/1024) θ = false ↔ 0 ≤ θ) := by
  refine ⟨?_, by norm_num, ?_⟩
  · norm_num [trend.calculateStats, trend.sqrtGo, trend.newtonIter, trend.newtonStep]
  · intro θ
    unfold trend.detectAnomalyWithThreshold
    norm_num [List.getLastD]

/-! ## Claim C7 -/

/-- A process with command `"x"`, `vszPercent = 8` and `cpuPercent = 0`. -/
def procHighVsz : parser.Process :=
  { pid := 1, ppid := 0, user := "root", priority := 0, nice := 0, vsz := 0
    vszPercent := 8, rss := 0, state := "S", cpu := 0, cpuPercent := 0
    memPercent := 0, time := "", command := "x" }

/-- A process with the same command `"x"`, `vszPercent = 3` but a larger
`cpuPercent = 5`. -/
def procHighCpu : parser.Process :=
  { pid := 2, ppid := 0, user := "root", priority := 0, nice := 0, vsz := 0
    vszPercent := 3, rss := 0, state := "S", cpu := 0, cpuPercent := 5
    memPercent := 0, time := "", command := "x" }

/-- Claim C7, counterexample: with two same-command entries of
`vszPercent` 8 and 3, the entry with `vszPercent = 3` wins when it comes
second and has the larger `cpuPercent` (the replacement test is a
disjunction over the two fields), so the dedup result is *not* the
`vszPercent = 8` entry regardless of order. -/
theorem dedup_order_dependent_counterexample :
    trend.dedupProcesses [procHighVsz, procHighCpu] = [procHighCpu]
    ∧ (trend.dedupProcesses [procHighVsz, procHighCpu]).map parser.Process.vszPercent ≠ [8] := by
  constructor
  · norm_num [trend.dedupProcesses, trend.dedupInsert, lookupA, updateA, procHighVsz, procHighCpu]
  · norm_num [trend.dedupProcesses, trend.dedupInsert, lookupA, updateA, procHighVsz, procHighCpu]

/-- Keys after an association-list write: unchanged if the key was present,
else the key is appended. -/
theorem updateA_keys {α : Type} (m : List (String × α)) (k : String) (v : α) :
    (updateA m k v).map Prod.fst =
      (if k ∈ m.map Prod.fst then m.map Prod.fst else m.map Prod.fst ++ [k]) := by
  induction m with
  | nil => simp [updateA]
  | cons e rest ih =>
    unfold updateA
    by_cases he : e.1 = k
    · simp [he]
    · push_neg at he
      have hne : ¬ k = e.1 := fun h3 => he h3.symm
      simp only [if_neg he, List.map_cons, ih]
      by_cases hk : k ∈ rest.map Prod.fst
      · simp [hk, hne]
      · simp [hk, hne]

/-- An association-list write preserves distinctness of keys. -/
theorem updateA_keys_nodup {α : Type} (m : List (String × α)) (k : String) (v : α)
    (h : (m.map Prod.fst).Nodup) : ((updateA m k v).map Prod.fst).Nodup := by
  rw [updateA_keys]
  by_cases hk : k ∈ m.map Prod.fst
  · simpa [hk] using h
  · simp only [if_neg hk]
    exact List.Nodup.append h (List.nodup_singleton k) (by simpa using hk)

/-- Every entry of an updated association list is an original entry or the
newly written pair. -/
theorem mem_updateA {α : Type} (m : List (String × α)) (k : String) (v : α)
    (e : String × α) : e ∈ updateA m k v → e ∈ m ∨ e = (k, v) := by
  induction m with
  | nil =>
    intro h
    simpa [updateA] using h
  | cons f rest ih =>
    intro h
    unfold updateA at h
    by_cases hf : f.1 = k
    · simp only [hf, if_pos rfl] at h
      rcases List.mem_cons.mp h with h | h
      · right; simp [h]
      · left; exact List.mem_cons_of_mem _ h
    · simp only [if_neg hf] at h
      rcases List.mem_cons.mp h with h | h
      · left; simp [h]
      · rcases ih h with h2 | h2
        · left; exact List.mem_cons_of_mem _ h2
        · right; exact h2

/-- One dedup step preserves distinctness of the stored commands. -/
theorem dedupInsert_keys_nodup (m : List (String × parser.Process)) (p : parser.Process)
    (h : (m.map Prod.fst).Nodup) : ((trend.dedupInsert m p).map Prod.fst).Nodup := by
  unfold trend.dedupInsert
  split
  · split
    · exact updateA_keys_nodup m p.command p h
    · exact h
  · exact updateA_keys_nodup m p.command p h

/-- One dedup step preserves the invariant that each entry is stored under
its own command. -/
theorem dedupInsert_coherent (m : List (String × parser.Process)) (p : parser.Process)
    (h : ∀ e ∈ m, e.1 = e.2.command) :
    ∀ e ∈ trend.dedupInsert m p, e.1 = e.2.command := by
  unfold trend.dedupInsert
  have hupd : ∀ e ∈ updateA m p.command p, e.1 = e.2.command := by
    intro e he
    rcases mem_updateA m p.command p e he with h2 | h2
    · exact h e h2
    · simp [h2]
  split
  · split
    · exact hupd
    · exact h
  · exact hupd

/-- The dedup fold keeps the stored commands pairwise distinct and each
entry stored under its own command. -/
theorem dedupFold_invariant (ps : List parser.Process) (m : List (String × parser.Process))
    (h1 : (m.map Prod.fst).Nodup) (h2 : ∀ e ∈ m, e.1 = e.2.command) :
    ((ps.foldl trend.dedupInsert m).map Prod.fst).Nodup
    ∧ ∀ e ∈ ps.foldl trend.dedupInsert m, e.1 = e.2.command := by
  induction ps generalizing m with
  | nil => exact ⟨h1, h2⟩
  | cons p rest ih =>
    exact ih (trend.dedupInsert m p) (dedupInsert_keys_nodup m p h1)
      (dedupInsert_coherent m p h2)

/-- Claim C7 as amended: the dedup collapses same-command entries to
exactly one entry per command (the output commands are pairwise distinct),
and in the `vszPercent` 3-vs-8 example the `vszPercent = 8` entry is kept
**in either order** provided the two entries' `cpuPercent` are equal; when
the lower-`vszPercent` entry instead has strictly larger `cpuPercent`, the
kept entry depends on the order (see the counterexample). -/
theorem dedup_keeps_larger_vsz (p1 p2 : parser.Process)
    (hcmd : p1.command = p2.command)
    (hv1 : p1.vszPercent = 8) (hv2 : p2.vszPercent = 3)
    (hcpu : p1.cpuPercent = p2.cpuPercent) :
    (trend.dedupProcesses [p1, p2] = [p1] ∧ trend.dedupProcesses [p2, p1] = [p1])
    ∧ ∀ ps : List parser.Process,
        ((trend.dedupProcesses ps).map parser.Process.command).Nodup := by
  refine ⟨⟨?_, ?_⟩, ?_⟩
  · norm_num [trend.dedupProcesses, trend.dedupInsert, lookupA, updateA, ← hcmd, hv1, hv2,
      hcpu]
  · norm_num [trend.dedupProcesses, trend.dedupInsert, lookupA, updateA, hcmd, hv1, hv2,
      hcpu]
  · intro ps
    obtain ⟨hnodup, hcoh⟩ := dedupFold_invariant ps [] (by simp) (by simp)
    unfold trend.dedupProcesses
    have hkeys : (ps.foldl trend.dedupInsert []).map Prod.fst
        = ((ps.foldl trend.dedupInsert []).map (fun e => e.2)).map parser.Process.command := by
      rw [List.map_map]
      exact List.map_congr_left (fun e he => hcoh e he)
    rw [hkeys] at hnodup
    exact hnodup

/-! ## Claim C5 -/

/-- Length of a bounded push: grows by one below capacity, otherwise one
element is evicted and the length is unchanged. -/
theorem pushBounded_length {α : Type} (xs : List α) (w : ℕ) (v : α) :
    (pushBounded xs w v).length = if xs.length + 1 > w then xs.length else xs.length + 1 := by
  unfold pushBounded
  by_cases h : (xs ++ [v]).length > w
  · simp only [if_pos h]
    have h2 : xs.length + 1 > w := by simpa using h
    simp [h2, List.length_tail]
  · simp only [if_neg h]
    have h2 : ¬ xs.length + 1 > w := by simpa using h
    simp [h2]

/-- The length bound of the claimed invariant (spec: "length ≤ its
configured capacity"). -/
def BoundedAnalyzer (t : trend.TrendAnalyzer) : Prop :=
  t.history.length ≤ t.window
  ∧ (∀ k, (lookupD t.tempHistory k []).length ≤ t.window)
  ∧ (∀ k, (lookupD t.longTermTempHistory k []).length ≤ t.longTermWindow)

/-- Reading an updated association list at any key. -/
theorem lookupA_updateA {α : Type} (m : List (String × α)) (k k2 : String) (v : α) :
    lookupA (updateA m k v) k2 = if k = k2 then some v else lookupA m k2 := by
  induction m with
  | nil => simp [updateA, lookupA]
  | cons e rest ih =>
    obtain ⟨a, b⟩ := e
    simp only [updateA]
    by_cases ha : a = k
    · simp only [if_pos ha, lookupA]
      by_cases hk : k = k2
      · simp [hk]
      · have ha2 : ¬ a = k2 := by rw [ha]; exact hk
        simp [hk, ha2]
    · simp only [if_neg ha, lookupA, ih]
      by_cases hk : a = k2
      · have hnk : ¬ k = k2 := fun hc => ha (hk.trans hc.symm)
        simp [hk, hnk]
      · simp [hk]

/-- One sensor update of `AddStats` preserves the per-key bounds of both
temperature maps. -/
theorem addSensorReading_bounded (w lw : ℕ)
    (maps : List (String × List ℚ) × List (String × List ℚ)) (e : String × ℚ)
    (h1 : ∀ k, (lookupD maps.1 k []).length ≤ w)
    (h2 : ∀ k, (lookupD maps.2 k []).length ≤ lw) :
    (∀ k, (lookupD (trend.addSensorReading w lw maps e).1 k []).length ≤ w)
    ∧ (∀ k, (lookupD (trend.addSensorReading w lw maps e).2 k []).length ≤ lw) := by
  unfold trend.addSensorReading
  constructor
  · intro k
    simp only [lookupD, lookupA_updateA]
    by_cases hk : e.1 = k
    · simp only [if_pos hk, Option.getD_some]
      rw [pushBounded_length]
      split
      · exact h1 e.1
      · omega
    · simp only [if_neg hk]
      exact h1 k
  · intro k
    simp only [lookupD, lookupA_updateA]
    by_cases hk : e.1 = k
    · simp only [if_pos hk, Option.getD_some]
      rw [pushBounded_length]
      split
      · exact h2 e.1
      · omega
    · simp only [if_neg hk]
      exact h2 k

/-- The whole sensor fold of `AddStats` preserves the per-key bounds. -/
theorem sensorFold_bounded (w lw : ℕ) (sensors : List (String × ℚ))
    (maps : List (String × List ℚ) × List (String × List ℚ))
    (h1 : ∀ k, (lookupD maps.1 k []).length ≤ w)
    (h2 : ∀ k, (lookupD maps.2 k []).length ≤ lw) :
    (∀ k, (lookupD (sensors.foldl (trend.addSensorReading w lw) maps).1 k []).length ≤ w)
    ∧ (∀ k, (lookupD (sensors.foldl (trend.addSensorReading w lw) maps).2 k []).length ≤ lw) := by
  induction sensors generalizing maps with
  | nil => exact ⟨h1, h2⟩
  | cons e rest ih =>
    obtain ⟨g1, g2⟩ := addSensorReading_bounded w lw maps e h1 h2
    exact ih _ g1 g2

/-- Claim C5: after any `AddStats`, the sample history and every sensor's
short and long series stay within their configured capacities; a bounded
push never shrinks a series and never exceeds the bound; below capacity it
is a plain append, and at capacity it evicts exactly the oldest element
while appending the new one. -/
theorem addStats_window_invariant :
    (∀ (t : trend.TrendAnalyzer) (stats : parser.SystemStats),
        BoundedAnalyzer t → BoundedAnalyzer (trend.AddStats t stats))
    ∧ (∀ (xs : List ℚ) (w : ℕ) (v : ℚ), xs.length ≤ (pushBounded xs w v).length)
    ∧ (∀ (xs : List ℚ) (w : ℕ) (v : ℚ), xs.length ≤ w → (pushBounded xs w v).length ≤ w)
    ∧ (∀ (xs : List ℚ) (w : ℕ) (v : ℚ), xs.length < w → pushBounded xs w v = xs ++ [v])
    ∧ (∀ (xs : List ℚ) (w : ℕ) (v : ℚ), xs ≠ [] → w ≤ xs.length →
        pushBounded xs w v = xs.tail ++ [v]) := by
  refine ⟨?_, ?_, ?_, ?_, ?_⟩
  · intro t stats ⟨hh, h1, h2⟩
    obtain ⟨g1, g2⟩ := sensorFold_bounded t.window t.longTermWindow
      stats.temperature.sensors (t.tempHistory, t.longTermTempHistory) h1 h2
    refine ⟨?_, g1, g2⟩
    show (pushBounded t.history t.window stats).length ≤ t.window
    rw [pushBounded_length]
    split
    · exact hh
    · omega
  · intro xs w v
    rw [pushBounded_length]
    split
    · omega
    · omega
  · intro xs w v h
    rw [pushBounded_length]
    split
    · exact h
    · omega
  · intro xs w v h
    unfold pushBounded
    have hc : ¬ w < xs.length + 1 := by omega
    simp [hc]
  · intro xs w v hne h
    unfold pushBounded
    have hgt : (xs ++ [v]).length > w := by simp; omega
    simp only [if_pos hgt]
    cases xs with
    | nil => exact absurd rfl hne
    | cons a rest => simp

/-- Witness for claim C5 at a concrete analyzer and pushes. -/
theorem addStats_window_invariant_witness :
    BoundedAnalyzer (trend.AddStats (trend.New 5) sampleZero)
    ∧ pushBounded [(1 : ℚ), 2] 2 3 = [2, 3] := by
  constructor
  · exact addStats_window_invariant.1 (trend.New 5) sampleZero
      ⟨by simp [trend.New], fun k => by simp [trend.New, lookupD, lookupA],
        fun k => by simp [trend.New, lookupD, lookupA]⟩
  · exact addStats_window_invariant.2.2.2.2 [(1 : ℚ), 2] 2 3 (by simp) (by simp)

/-! ## Claim C3 -/

/-- Closed form of the index sum accumulated by `calculateTrend`. -/
theorem regSums_sumX (vs : List ℚ) (k : ℚ) :
    (trend.regSums vs k).1
      = (vs.length : ℚ) * k + (vs.length : ℚ) * ((vs.length : ℚ) - 1) / 2 := by
  induction vs generalizing k with
  | nil => simp [trend.regSums]
  | cons y ys ih =>
    simp only [trend.regSums, ih, List.length_cons]
    push_cast
    ring

/-- Closed form of the squared-index sum accumulated by `calculateTrend`. -/
theorem regSums_sumX2 (vs : List ℚ) (k : ℚ) :
    (trend.regSums vs k).2.2.2
      = (vs.length : ℚ) * k ^ 2 + (vs.length : ℚ) * ((vs.length : ℚ) - 1) * k
        + ((vs.length : ℚ) - 1) * (vs.length : ℚ) * (2 * (vs.length : ℚ) - 1) / 6 := by
  induction vs generalizing k with
  | nil => simp [trend.regSums]
  | cons y ys ih =>
    simp only [trend.regSums, ih, List.length_cons]
    push_cast
    ring

/-- The ordinary-least-squares denominator of `calculateTrend` as the code
computes it (trend.go line 714). -/
def regDenom (vs : List ℚ) : ℚ :=
  (vs.length : ℚ) * (trend.regSums vs 0).2.2.2 - (trend.regSums vs 0).1 * (trend.regSums vs 0).1

/-- The regression denominator factors as `n²(n−1)(n+1)/12`. -/
theorem regDenom_closed (vs : List ℚ) :
    regDenom vs = (vs.length : ℚ) ^ 2 * ((vs.length : ℚ) - 1) * ((vs.length : ℚ) + 1) / 12 := by
  unfold regDenom
  rw [regSums_sumX, regSums_sumX2]
  ring

/-- Claim C3: `Analyze` returns no result on fewer than 2 samples and a
result as soon as 2 samples are present; and the regression denominator
`n·Σx² − (Σx)²` of every slope computation is nonzero for series of length
`n ≥ 2`, so no slope involves a division by zero. -/
theorem analyze_two_samples :
    (∀ t : trend.TrendAnalyzer, t.history.length < 2 → trend.Analyze t = none)
    ∧ (∀ t : trend.TrendAnalyzer, 2 ≤ t.history.length →
        trend.Analyze t = some (trend.analyzeCore t))
    ∧ (∀ vs : List ℚ, 2 ≤ vs.length → regDenom vs ≠ 0) := by
  refine ⟨?_, ?_, ?_⟩
  · intro t h
    simp [trend.Analyze, h]
  · intro t h
    simp [trend.Analyze, Nat.not_lt.mpr h]
  · intro vs h
    rw [regDenom_closed]
    have hn : (2 : ℚ) ≤ (vs.length : ℚ) := by exact_mod_cast h
    have h1 : 0 < (vs.length : ℚ) ^ 2 := by positivity
    have h2 : 0 < (vs.length : ℚ) - 1 := by linarith
    have h3 : 0 < (vs.length : ℚ) + 1 := by linarith
    have hpos : 0 < (vs.length : ℚ) ^ 2 * ((vs.length : ℚ) - 1) * ((vs.length : ℚ) + 1) := by
      positivity
    intro hc
    rw [div_eq_zero_iff] at hc
    rcases hc with hc | hc
    · linarith
    · norm_num at hc

/-- Witness for claim C3: a fresh analyzer has no result; two all-zero
samples produce one; the denominator is nonzero on a length-2 series. -/
theorem analyze_two_samples_witness :
    trend.Analyze (trend.New 5) = none
    ∧ trend.Analyze (trend.AddStats (trend.AddStats (trend.New 5) sampleZero) sampleZero)
        = some (trend.analyzeCore (trend.AddStats (trend.AddStats (trend.New 5) sampleZero) sampleZero))
    ∧ regDenom [1, 2] ≠ 0 := by
  refine ⟨?_, ?_, ?_⟩
  · exact analyze_two_samples.1 (trend.New 5) (by simp [trend.New])
  · exact analyze_two_samples.2.1 _ (by rfl)
  · exact analyze_two_samples.2.2 [1, 2] (by simp)

/-! ## Claim C2 -/

/-- Each per-partition contribution of the trend stress formula is
nonnegative. -/
theorem partitionRisk_nonneg (mp : String) (fs : trend.PartitionTrend) :
    0 ≤ trend.partitionRisk mp fs := by
  unfold trend.partitionRisk trend.partitionTierRisk trend.partitionSlopeRisk
  have h1 : (0 : ℚ) ≤
      (if fs.critical then if mp = "/" then (30 : ℚ) else if mp = "/boot" then 25 else 15
       else if fs.current < 20 then if mp = "/" then 15 else if mp = "/boot" then 10 else 5
       else 0) := by
    split_ifs <;> norm_num
  have h2 : (0 : ℚ) ≤ (if fs.trendVal < -1 then (15 : ℚ)
      else if fs.trendVal < -(1/2) then 5 else 0) := by
    split_ifs <;> norm_num
  linarith

/-- The partition fold of the trend stress formula only grows its
accumulator. -/
theorem partitionFold_ge (l : List (String × trend.PartitionTrend)) (acc : ℚ) :
    acc ≤ l.foldl (fun a e => a + trend.partitionRisk e.1 e.2) acc := by
  induction l generalizing acc with
  | nil => simp
  | cons e rest ih =>
    simp only [List.foldl_cons]
    calc acc ≤ acc + trend.partitionRisk e.1 e.2 := by
            have := partitionRisk_nonneg e.1 e.2
            linarith
      _ ≤ _ := ih _

/-- The accumulated risk of the trend stress formula is nonnegative. -/
theorem stressRisk_nonneg (t : trend.Trend) : 0 ≤ trend.stressRisk t := by
  unfold trend.stressRisk
  have hfold := partitionFold_ge t.filesystem.partitions 0
  have h1 : (0 : ℚ) ≤ (if t.cpuUsage.mean > 20 then (20 : ℚ)
      else if t.cpuUsage.mean > 10 then 10 else 0) := by split_ifs <;> norm_num
  have h2 : (0 : ℚ) ≤ (if t.memoryUsage.mean > 90 then (30 : ℚ)
      else if t.memoryUsage.mean > 80 then 20
      else if t.memoryUsage.mean > 70 then 10 else 0) := by split_ifs <;> norm_num
  have h3 : (0 : ℚ) ≤ (if t.processCount.mean > 100 then (20 : ℚ)
      else if t.processCount.mean > 50 then 10 else 0) := by split_ifs <;> norm_num
  have h4 : (0 : ℚ) ≤ (if t.processCount.anomaly then (20 : ℚ) else 0) := by
    split_ifs <;> norm_num
  have h5 : (0 : ℚ) ≤ (if t.cpuUsage.anomaly then (20 : ℚ) else 0) := by
    split_ifs <;> norm_num
  have h6 : (0 : ℚ) ≤ (if t.temperature.thresholdExceeded then (50 : ℚ)
      else if t.temperature.max > 60 then 20
      else if t.temperature.max > 50 then 10
      else if t.temperature.max < -20 then 20
      else if t.temperature.max < -10 then 10 else 0) := by split_ifs <;> norm_num
  have h7 : (0 : ℚ) ≤ (if t.temperature.anomaly ∧ ¬t.temperature.thresholdExceeded
      then (15 : ℚ) else 0) := by split_ifs <;> norm_num
  have h8 : (0 : ℚ) ≤ (if t.filesystem.critical then (40 : ℚ)
      else if t.filesystem.anomaly then 20 else 0) := by split_ifs <;> norm_num
  linarith

/-- Each per-partition contribution of the summary stress formula is
nonnegative. -/
theorem summaryPartitionRisk_nonneg (mp : String) (p : summary.SummaryPartition) :
    0 ≤ summary.summaryPartitionRisk mp p := by
  unfold summary.summaryPartitionRisk
  split_ifs <;> norm_num

/-- The partition fold of the summary stress formula only grows its
accumulator. -/
theorem summaryPartitionFold_ge (l : List (String × summary.SummaryPartition)) (acc : ℚ) :
    acc ≤ l.foldl (fun a e => a + summary.summaryPartitionRisk e.1 e.2) acc := by
  induction l generalizing acc with
  | nil => simp
  | cons e rest ih =>
    simp only [List.foldl_cons]
    calc acc ≤ acc + summary.summaryPartitionRisk e.1 e.2 := by
            have := summaryPartitionRisk_nonneg e.1 e.2
            linarith
      _ ≤ _ := ih _

/-- The accumulated stress of the summary formula is nonnegative. -/
theorem stressAccum_nonneg (s : summary.SystemSummary) : 0 ≤ summary.stressAccum s := by
  unfold summary.stressAccum
  have hfold := summaryPartitionFold_ge s.fsPartitions 0
  have h1 : (0 : ℚ) ≤ (if s.cpuUser + s.cpuSystem > 90 then (30 : ℚ)
      else if s.cpuUser + s.cpuSystem > 70 then 20
      else if s.cpuUser + s.cpuSystem > 50 then 10 else 0) := by split_ifs <;> norm_num
  have h2 : (0 : ℚ) ≤ (if s.memUsedPc.gtQ 90 then (30 : ℚ)
      else if s.memUsedPc.gtQ 70 then 20
      else if s.memUsedPc.gtQ 50 then 10 else 0) := by split_ifs <;> norm_num
  have h3 : (0 : ℚ) ≤ (if s.load1 > 10 then (30 : ℚ) else if s.load1 > 5 then 20
      else if s.load1 > 2 then 10 else 0) := by split_ifs <;> norm_num
  have h4 : (0 : ℚ) ≤ (if s.maxTemp > 70 then (30 : ℚ)
      else if s.maxTemp > 60 then 20
      else if s.maxTemp > 50 then 10
      else if s.maxTemp < -20 then 20
      else if s.maxTemp < -10 then 10 else 0) := by split_ifs <;> norm_num
  have h5 : (0 : ℚ) ≤ (if s.procUninterr > 5 then (20 : ℚ) else 0) := by
    split_ifs <;> norm_num
  have h6 : (0 : ℚ) ≤ (if s.procHighCPU > 10 then (20 : ℚ) else 0) := by
    split_ifs <;> norm_num
  linarith

/-- The all-zero trend: every mean, deviation, slope and flag zero/false,
no sensors, no partitions. -/
def zeroTrend : trend.Trend :=
  { cpuUsage := { mean := 0, stdDev := 0, trendVal := 0, anomaly := false }
    memoryUsage := { mean := 0, stdDev := 0, trendVal := 0, anomaly := false }
    processCount := { mean := 0, stdDev := 0, trendVal := 0, anomaly := false }
    temperature := { mean := 0, stdDev := 0, trendVal := 0, anomaly := false, max := 0
                     min := 0, absoluteThreshold := 70, thresholdExceeded := false
                     sensors := [] }
    filesystem := { partitions := [], anomaly := false, critical := false }
    systemStress := 0 }

/-- A critically full root partition with rapidly falling free space. -/
def maxPartition : trend.PartitionTrend :=
  { mean := 5, stdDev := 0, trendVal := -2, anomaly := true, min := 5, max := 5
    current := 5, critical := true, device := "/dev/root", mountPoint := "/" }

/-- A maximally adverse trend: every tier at its worst. -/
def maxTrend : trend.Trend :=
  { cpuUsage := { mean := 95, stdDev := 0, trendVal := 0, anomaly := true }
    memoryUsage := { mean := 95, stdDev := 0, trendVal := 0, anomaly := true }
    processCount := { mean := 200, stdDev := 0, trendVal := 0, anomaly := true }
    temperature := { mean := 80, stdDev := 0, trendVal := 0, anomaly := true, max := 80
                     min := 80, absoluteThreshold := 70, thresholdExceeded := true
                     sensors := [] }
    filesystem := { partitions := [("/", maxPartition)], anomaly := true, critical := true }
    systemStress := 0 }

/-- A critically full root partition as the summary records it. -/
def maxSummaryPartition : summary.SummaryPartition :=
  { device := "/dev/root", size := 0, used := 0, available := 0, usedPct := 95
    freeSpace := 5, mountPoint := "/", critical := true }

/-- A maximally adverse summary state. -/
def maxSummary : summary.SystemSummary :=
  { summary.New with
    cpuUser := 95, load1 := 20, maxTemp := 80
    memUsedPc := FVal.finite 95
    procUninterr := 10, procHighCPU := 20
    fsPartitions := [("/", maxSummaryPartition)] }

/-- Claim C2: both stress scorers return exactly `min(accumulated risk,
100)`, which always lies in `[0, 100]`; the all-zero inputs score 0 and
maximal adverse inputs score exactly 100. -/
theorem system_stress_clamped :
    (∀ t : trend.Trend,
        trend.calculateSystemStress t = minQ (trend.stressRisk t) 100
        ∧ 0 ≤ trend.calculateSystemStress t
        ∧ trend.calculateSystemStress t ≤ 100)
    ∧ (∀ s : summary.SystemSummary,
        summary.calculateSystemStress s = minQ (summary.stressAccum s) 100
        ∧ 0 ≤ summary.calculateSystemStress s
        ∧ summary.calculateSystemStress s ≤ 100)
    ∧ trend.calculateSystemStress zeroTrend = 0
    ∧ trend.calculateSystemStress maxTrend = 100
    ∧ summary.calculateSystemStress summary.New = 0
    ∧ summary.calculateSystemStress maxSummary = 100 := by
  refine ⟨?_, ?_, ?_, ?_, ?_, ?_⟩
  · intro t
    refine ⟨rfl, ?_, ?_⟩
    · unfold trend.calculateSystemStress minQ
      have := stressRisk_nonneg t
      split <;> linarith
    · unfold trend.calculateSystemStress minQ
      split <;> linarith
  · intro s
    refine ⟨rfl, ?_, ?_⟩
    · unfold summary.calculateSystemStress minQ
      have := stressAccum_nonneg s
      split <;> linarith
    · unfold summary.calculateSystemStress minQ
      split <;> linarith
  · norm_num [trend.calculateSystemStress, trend.stressRisk, minQ, zeroTrend]
  · norm_num [trend.calculateSystemStress, trend.stressRisk, trend.partitionRisk,
      trend.partitionTierRisk, trend.partitionSlopeRisk, minQ, maxTrend, maxPartition]
  · norm_num [summary.calculateSystemStress, summary.stressAccum, FVal.gtQ, minQ,
      summary.New]
  · norm_num [summary.calculateSystemStress, summary.stressAccum,
      summary.summaryPartitionRisk, FVal.gtQ, minQ, maxSummary, maxSummaryPartition,
      summary.New]

/-! ## Claim C4 -/

/-- Per-partition tier table following the spec words for the TrendEngine
formula: critical ⇒ +30 for `/`, +25 for `/boot`, +15 otherwise; else free%
below 20 ⇒ +15/+10/+5 by the same mount tiering. -/
def specTrendTierTable (mount : String) (critical : Bool) (current : ℚ) : ℚ :=
  if critical then
    if mount = "/" then 30 else if mount = "/boot" then 25 else 15
  else if current < 20 then
    if mount = "/" then 15 else if mount = "/boot" then 10 else 5
  else 0

/-- Per-partition tier table following the amended spec words for the
RunningSummary formula: free% below 10 ⇒ +40 for `/`, +30 for `/boot`,
+20 otherwise; else below 20 ⇒ +20/+15/+10 by the same mount tiering. -/
def specSummaryTierTable (mount : String) (freeSpace : ℚ) : ℚ :=
  if freeSpace < 10 then
    if mount = "/" then 40 else if mount = "/boot" then 30 else 20
  else if freeSpace < 20 then
    if mount = "/" then 20 else if mount = "/boot" then 15 else 10
  else 0

/-- Claim C4, counterexample: on a critical root partition with 5% free
space the RunningSummary formula adds 40 where the TrendEngine formula
adds 30, so the two per-partition tierings are not the same. -/
theorem partition_tiers_differ_counterexample :
    summary.summaryPartitionRisk "/" maxSummaryPartition = 40
    ∧ trend.partitionTierRisk "/" maxPartition = 30
    ∧ summary.summaryPartitionRisk "/" maxSummaryPartition
        ≠ trend.partitionTierRisk "/" maxPartition := by
  refine ⟨?_, ?_, ?_⟩
  · norm_num [summary.summaryPartitionRisk, maxSummaryPartition]
  · norm_num [trend.partitionTierRisk, maxPartition]
  · norm_num [summary.summaryPartitionRisk, maxSummaryPartition,
      trend.partitionTierRisk, maxPartition]

/-- Claim C4 as amended: the two per-partition tierings share the same
case structure (critical/low split, mount classes `/`, `/boot`, other) but
use different constants — the TrendEngine tier is +30/+25/+15 critical and
+15/+10/+5 low, while the RunningSummary tier is +40/+30/+20 when free%
is below 10 and +20/+15/+10 when below 20. -/
theorem partition_tiers_amended :
    (∀ (mount : String) (fs : trend.PartitionTrend),
        trend.partitionTierRisk mount fs = specTrendTierTable mount fs.critical fs.current)
    ∧ (∀ (mount : String) (p : summary.SummaryPartition),
        summary.summaryPartitionRisk mount p = specSummaryTierTable mount p.freeSpace) := by
  constructor
  · intro mount fs
    rfl
  · intro mount p
    rfl

/-! ## Claim C9 -/

/-- Claim C9: on a tick, the orchestrator invokes the crash-dump write
exactly when `Analyze` produced a trend satisfying `SystemStress ≥ 85` or
one of the anomaly / threshold-exceeded / filesystem critical flags; in
particular no dump is triggered when none of these hold or when `Analyze`
returned nothing. -/
theorem crash_dump_trigger_iff :
    ∀ t : trend.TrendAnalyzer,
      tickCrashDump t = true ↔
        ∃ tr, trend.Analyze t = some tr ∧
          (85 ≤ tr.systemStress
            ∨ tr.cpuUsage.anomaly = true
            ∨ tr.memoryUsage.anomaly = true
            ∨ tr.processCount.anomaly = true
            ∨ tr.temperature.anomaly = true
            ∨ tr.temperature.thresholdExceeded = true
            ∨ tr.filesystem.critical = true
            ∨ tr.filesystem.anomaly = true) := by
  intro t
  unfold tickCrashDump
  cases h : trend.Analyze t with
  | none => simp
  | some tr =>
    simp only [h, Option.some.injEq]
    constructor
    · intro hc
      refine ⟨tr, rfl, ?_⟩
      unfold crashDumpCondition at hc
      simp only [Bool.or_eq_true, decide_eq_true_eq] at hc
      tauto
    · rintro ⟨tr2, htr, hdisj⟩
      subst htr
      unfold crashDumpCondition
      simp only [Bool.or_eq_true, decide_eq_true_eq]
      tauto

/-! ## Claim C10 -/

/-- The sensor-rebuild fold of `Update` does not touch the memory
used-percent field. -/
theorem sensorRebuild_memUsedPc (l : List (String × ℚ)) (s0 : summary.SystemSummary) :
    (l.foldl (fun acc e =>
      { acc with
        sensors := updateA acc.sensors e.1
          { value := e.2, location := summary.locationOf e.1, maxTemp := e.2, avgTemp := e.2 }
        tempHist := updateA acc.tempHist e.1
          (pushBounded (lookupD acc.tempHist e.1 []) 10 e.2) }) s0).memUsedPc
      = s0.memUsedPc := by
  induction l generalizing s0 with
  | nil => rfl
  | cons e rest ih => simp only [List.foldl_cons, ih]

/-- The max/avg recomputation fold of `Update` does not touch the memory
used-percent field. -/
theorem maxAvgFold_memUsedPc (l : List (String × List ℚ))
    (a0 : summary.SystemSummary × ℚ × ℕ) :
    ((l.foldl (fun (acc : summary.SystemSummary × ℚ × ℕ) e =>
      ({ acc.1 with
          maxTemp := goMaxFrom acc.1.maxTemp e.2
          sensors := updateA acc.1.sensors e.1
            { lookupD acc.1.sensors e.1 summary.zeroSensor with
                maxTemp := goMaxFrom (-100) e.2
                avgTemp := e.2.sum / (e.2.length : ℚ) } },
        acc.2.1 + e.2.sum, acc.2.2 + e.2.length)) a0).1).memUsedPc
      = a0.1.memUsedPc := by
  induction l generalizing a0 with
  | nil => rfl
  | cons e rest ih => simp only [List.foldl_cons, ih]

/-- The filesystem fold of `Update` does not touch the memory used-percent
field. -/
theorem fsFold_memUsedPc (l : List (String × parser.FilesystemStats))
    (s0 : summary.SystemSummary) :
    (l.foldl (fun acc e =>
      { acc with
        fsPartitions := updateA acc.fsPartitions e.1
          { device := e.2.device, size := e.2.size, used := e.2.used
            available := e.2.available, usedPct := e.2.usedPct
            freeSpace := 100 - e.2.usedPct, mountPoint := e.2.mountPoint
            critical := e.2.critical }
        fsHist := updateA acc.fsHist e.1
          (pushBounded (lookupD acc.fsHist e.1 []) 10 (100 - e.2.usedPct)) }) s0).memUsedPc
      = s0.memUsedPc := by
  induction l generalizing s0 with
  | nil => rfl
  | cons e rest ih => simp only [List.foldl_cons, ih]

/-- The used-percent a summary update stores: the unguarded division of
`summary.go` line 142. -/
theorem update_memUsedPc (s : summary.SystemSummary) (stats : parser.SystemStats)
    (temps : List (String × ℚ)) :
    (summary.Update s stats temps).memUsedPc
      = FVal.mul100 (fdiv ((summary.toUInt64Z stats.memory.used : ℚ))
          ((stats.memory.total : ℤ) : ℚ)) := by
  unfold summary.Update
  simp only []
  cases hfs : stats.filesystem with
  | none =>
    simp only [hfs]
    split
    · rw [maxAvgFold_memUsedPc, sensorRebuild_memUsedPc]
    · rw [maxAvgFold_memUsedPc, sensorRebuild_memUsedPc]
  | some fsMap =>
    simp only [hfs]
    rw [fsFold_memUsedPc]
    split
    · rw [maxAvgFold_memUsedPc, sensorRebuild_memUsedPc]
    · rw [maxAvgFold_memUsedPc, sensorRebuild_memUsedPc]

/-- Claim C10: on a sample with `Memory.Total = 0`, the trend engine
records the memory usage as 0% (the division is guarded by `Total > 0`),
while the summary `Update` divides with no zero guard and stores a
non-finite used-percent — NaN when the used counter is also 0. -/
theorem memory_total_zero_divergence (s : summary.SystemSummary)
    (stats : parser.SystemStats) (temps : List (String × ℚ))
    (h : stats.memory.total = 0) :
    trend.memUsagesOf [stats] = [0]
    ∧ (summary.Update s stats temps).memUsedPc.isFinite = false
    ∧ (stats.memory.used = 0 → (summary.Update s stats temps).memUsedPc = FVal.nan) := by
  refine ⟨?_, ?_, ?_⟩
  · simp [trend.memUsagesOf, h]
  · rw [update_memUsedPc, h]
    simp only [Int.cast_zero]
    unfold fdiv
    by_cases hu : (summary.toUInt64Z stats.memory.used : ℚ) = 0
    · simp [hu, FVal.mul100, FVal.isFinite]
    · have hpos : (0 : ℚ) < (summary.toUInt64Z stats.memory.used : ℚ) := by
        have : 0 ≤ (summary.toUInt64Z stats.memory.used : ℚ) := by positivity
        rcases lt_or_eq_of_le this with h2 | h2
        · exact h2
        · exact absurd h2.symm hu
      simp [hu, hpos, FVal.mul100, FVal.isFinite]
  · intro hu
    rw [update_memUsedPc, h, hu]
    simp [summary.toUInt64Z, fdiv, FVal.mul100]

/-- Witness for claim C10 at the all-zero sample and a fresh summary. -/
theorem memory_total_zero_divergence_witness :
    trend.memUsagesOf [sampleZero] = [0]
    ∧ (summary.Update summary.New sampleZero []).memUsedPc.isFinite = false
    ∧ (summary.Update summary.New sampleZero []).memUsedPc = FVal.nan := by
  obtain ⟨h1, h2, h3⟩ := memory_total_zero_divergence summary.New sampleZero [] (by rfl)
  exact ⟨h1, h2, h3 (by rfl)⟩

/-! ## Claim C6 -/

/-- The claim C6 engine: window 5, anomaly threshold 2.0, trend threshold
0.1, temperature threshold 70.0 (as set by `NewWithOptions`), fed nine
samples at 10% CPU busy and a tenth at 95%. -/
def c6Analyzer : trend.TrendAnalyzer :=
  (List.replicate 9 (cpuSampleAt 10) ++ [cpuSampleAt 95]).foldl trend.AddStats
    (trend.NewWithOptions 5 2 (1/10))

/-- Claim C6: after the tenth sample the analysis reports a CPU anomaly
(the window is `[10,10,10,10,95]`, whose regression slope 17 far exceeds
the 0.1 trend threshold) and a system stress of at least 20 (in fact 40:
+20 for the mean busy 27% and +20 for the CPU anomaly). -/
theorem cpu_spike_scenario :
    trend.Analyze c6Analyzer = some (trend.analyzeCore c6Analyzer)
    ∧ (trend.analyzeCore c6Analyzer).cpuUsage.anomaly = true
    ∧ 20 ≤ (trend.analyzeCore c6Analyzer).systemStress := by
  have hhist : c6Analyzer.history
      = [cpuSampleAt 10, cpuSampleAt 10, cpuSampleAt 10, cpuSampleAt 10, cpuSampleAt 95] := rfl
  have hA : c6Analyzer.anomalyThreshold = 2 := rfl
  have hT : c6Analyzer.trendThreshold = 1/10 := rfl
  have hcpuvals : trend.cpuUsagesOf c6Analyzer.history = [10, 10, 10, 10, 95] := by
    rw [hhist]; norm_num [trend.cpuUsagesOf, cpuSampleAt]
  have hmemvals : trend.memUsagesOf c6Analyzer.history = [0, 0, 0, 0, 0] := by
    rw [hhist]; norm_num [trend.memUsagesOf, cpuSampleAt]
  have hprocvals : trend.procCountsOf c6Analyzer.history = [0, 0, 0, 0, 0] := by
    rw [hhist]; norm_num [trend.procCountsOf, cpuSampleAt]
  have hstats27 : trend.calculateStats [10, 10, 10, 10, 95] = (27, trend.sqrtGo 1156) := by
    norm_num [trend.calculateStats]
  have htrend17 : trend.calculateTrend [10, 10, 10, 10, 95] = 17 := by
    norm_num [trend.calculateTrend, trend.regSums]
  have hdta17 : trend.detectTrendAnomaly 17 (1/10) = true := by
    norm_num [trend.detectTrendAnomaly, abs]
  have hstats0 : trend.calculateStats [0, 0, 0, 0, 0] = (0, 1/1024) := by
    norm_num [trend.calculateStats, trend.sqrtGo, trend.newtonIter, trend.newtonStep]
  have htrend0 : trend.calculateTrend [0, 0, 0, 0, 0] = 0 := by
    norm_num [trend.calculateTrend, trend.regSums]
  have hdetect0 : trend.detectAnomalyWithThreshold [0, 0, 0, 0, 0] 0 (1/1024) 2 = false := by
    norm_num [trend.detectAnomalyWithThreshold, List.getLastD]
  have hdta0 : trend.detectTrendAnomaly 0 (1/10) = false := by
    norm_num [trend.detectTrendAnomaly, abs]
  have hzeroMetric : trend.metricTrendOf [0, 0, 0, 0, 0] 2 (1/10)
      = { mean := 0, stdDev := 1/1024, trendVal := 0, anomaly := false } := by
    simp only [trend.metricTrendOf, hstats0, htrend0]
    norm_num [hdetect0, hdta0]
  have hcpuAnomaly : (trend.metricTrendOf [10, 10, 10, 10, 95] 2 (1/10)).anomaly = true := by
    simp only [trend.metricTrendOf]
    rw [htrend17, hdta17, Bool.or_true]
  have hcpuMean : (trend.metricTrendOf [10, 10, 10, 10, 95] 2 (1/10)).mean = 27 := by
    simp only [trend.metricTrendOf]
    rw [hstats27]
  have htempT : trend.analyzeTemperature c6Analyzer
      = { mean := 0, stdDev := 0, trendVal := 0, anomaly := false, max := 0, min := 0
          absoluteThreshold := 70, thresholdExceeded := false, sensors := [] } := rfl
  have hfsT : trend.analyzeFilesystem c6Analyzer
      = { partitions := [], anomaly := false, critical := false } := rfl
  refine ⟨rfl, ?_, ?_⟩
  · simp only [trend.analyzeCore, hcpuvals, hA, hT]
    exact hcpuAnomaly
  · simp only [trend.analyzeCore, hcpuvals, hmemvals, hprocvals, hA, hT, htempT, hfsT,
      hzeroMetric]
    unfold trend.calculateSystemStress trend.stressRisk minQ
    simp only [hcpuAnomaly, hcpuMean, List.foldl_nil]
    norm_num

/-- A process like `procHighCpu` but with the same `cpuPercent` as
`procHighVsz` (both 0), for the amended-claim witness. -/
def procLowVszEqCpu : parser.Process :=
  { pid := 2, ppid := 0, user := "root", priority := 0, nice := 0, vsz := 0
    vszPercent := 3, rss := 0, state := "S", cpu := 0, cpuPercent := 0
    memPercent := 0, time := "", command := "x" }

/-- Witness for the amended claim C7 at concrete processes. -/
theorem dedup_keeps_larger_vsz_witness :
    trend.dedupProcesses [procHighVsz, procLowVszEqCpu] = [procHighVsz]
    ∧ trend.dedupProcesses [procLowVszEqCpu, procHighVsz] = [procHighVsz] :=
  (dedup_keeps_larger_vsz procHighVsz procLowVszEqCpu rfl rfl rfl rfl).1
